import Mathlib

/-!
Verification of the review-scoring and college-rating aggregation core of the
college-booking backend.

The embedding follows the JavaScript source:
* utils/reviewHelpers.js : calculateReviewScore, getReviewSentiment,
  validateReviewContent;
* routes/reviews.js : updateCollegeRatings and the review route handlers
  (create, author update, author soft delete, helpful vote, report,
  admin moderation);
* models/Review.js : the review document shape.

Number semantics: all JavaScript arithmetic here is modelled over ℚ (the
values involved are small exact rationals) and JavaScript Math.round is
modelled exactly (round half toward positive infinity).  A JavaScript value
that may be undefined is modelled with Option, and an expression that would
throw a TypeError on undefined is modelled by propagating none.  Strings are
modelled as lists of characters (code points).
-/

namespace CollegeBooking

/-- JavaScript Math.round on an exact rational: nearest integer, ties toward
positive infinity, i.e. ⌊x + 1/2⌋. -/
def jsRound (x : ℚ) : ℤ := ⌊x + 1/2⌋

/-- The six rating sub-scores of a review (ratings block of models/Review.js).
The schema constrains each to an integer in [1,5]; the pure helpers read
them as plain numbers, so they are carried as rationals and the schema
bounds appear as hypotheses where a claim assumes them. -/
structure Ratings where
  overall : ℚ
  academics : ℚ
  campusLife : ℚ
  facilities : ℚ
  location : ℚ
  value : ℚ
deriving DecidableEq

/-- The helpful / reported sub-document of a review: a counter plus the list
of user ids that voted (models/Review.js). -/
structure VoteInfo where
  count : ℤ
  users : List String
deriving DecidableEq

/-- The part of a review document read by the pure helpers in
utils/reviewHelpers.js.  pros, cons, helpful and reported may be undefined
in an arbitrary snapshot, hence Option. -/
structure ReviewSnapshot where
  ratings : Ratings
  content : List Char
  pros : Option (List String)
  cons : Option (List String)
  wouldRecommend : Bool
  helpful : Option VoteInfo
  reported : Option VoteInfo
deriving DecidableEq

/-- utils/reviewHelpers.js calculateReviewScore.

The source destructures ratings, helpful and reported, then reads
helpful.count and reported.count unconditionally: when helpful or reported
is undefined this is a TypeError, modelled as none.  pros and cons are read
through optional chaining (pros?.length || 0), so an undefined list counts
as 0.  Otherwise:
  ratingScore   = 0.3*overall + 0.2*academics + 0.15*campusLife
                + 0.15*facilities + 0.1*location + 0.1*value
  helpfulBoost  = min(helpful.count * 0.1, 2)
  reportPenalty = min(reported.count * 0.5, 3)
  contentScore  = min(content.length / 200 + (|pros|+|cons|) * 0.2, 1)
  result        = Math.round(max(0, sum of the above) * 10) / 10. -/
def calculateReviewScore (review : ReviewSnapshot) : Option ℚ :=
  match review.helpful, review.reported with
  | some helpful, some reported =>
    let ratings := review.ratings
    let ratingScore :=
      ratings.overall * (3/10) +
      ratings.academics * (2/10) +
      ratings.campusLife * (15/100) +
      ratings.facilities * (15/100) +
      ratings.location * (1/10) +
      ratings.value * (1/10)
    let helpfulBoost := min ((helpful.count : ℚ) * (1/10)) 2
    let reportPenalty := min ((reported.count : ℚ) * (5/10)) 3
    let contentLength : ℚ := (review.content.length : ℚ)
    let prosConsCount : ℚ :=
      (((review.pros.map List.length).getD 0 + (review.cons.map List.length).getD 0 : ℕ) : ℚ)
    let contentScore := min (contentLength / 200 + prosConsCount * (2/10)) 1
    let finalScore := max 0 (ratingScore + helpfulBoost - reportPenalty + contentScore)
    some ((jsRound (finalScore * 10) : ℚ) / 10)
  | _, _ => none

/-- The three sentiment labels returned by getReviewSentiment. -/
inductive Sentiment
  | positive
  | neutral
  | negative
deriving DecidableEq

/-- utils/reviewHelpers.js getReviewSentiment: "positive" when the mean of
the six ratings is at least 4, wouldRecommend holds and there are strictly
more pros than cons; otherwise "negative" when the mean is at most 2,
wouldRecommend is false and there are strictly more cons than pros;
otherwise "neutral".  pros?.length || 0 and cons?.length || 0 read absent
lists as empty. -/
def getReviewSentiment (review : ReviewSnapshot) : Sentiment :=
  let ratings := review.ratings
  let averageRating :=
    (ratings.overall + ratings.academics + ratings.campusLife + ratings.facilities +
      ratings.location + ratings.value) / 6
  let prosCount := (review.pros.map List.length).getD 0
  let consCount := (review.cons.map List.length).getD 0
  if 4 ≤ averageRating ∧ review.wouldRecommend = true ∧ consCount < prosCount then
    Sentiment.positive
  else if averageRating ≤ 2 ∧ review.wouldRecommend = false ∧ prosCount < consCount then
    Sentiment.negative
  else
    Sentiment.neutral

/-! ## Content heuristic validator (utils/reviewHelpers.js validateReviewContent) -/

/-- The JavaScript regex character class \s: whitespace characters. -/
def isJsSpace (c : Char) : Bool :=
  c == ' ' || c == '\t' || c == '\n' || c.toNat == 11 || c.toNat == 12 || c == '\r' ||
  c.toNat == 0xa0 || c.toNat == 0x1680 ||
  (0x2000 ≤ c.toNat && c.toNat ≤ 0x200a) ||
  c.toNat == 0x2028 || c.toNat == 0x2029 || c.toNat == 0x202f ||
  c.toNat == 0x205f || c.toNat == 0x3000 || c.toNat == 0xfeff

/-- The JavaScript regex dot without the s flag: any character except a line
terminator. -/
def isRegexDot (c : Char) : Bool :=
  !(c == '\n' || c == '\r' || c.toNat == 0x2028 || c.toNat == 0x2029)

/-- ASCII lower-casing, the case folding JavaScript applies when matching an
ASCII-only pattern case-insensitively (regex i flag, and toLowerCase
restricted to the ASCII letters occurring in the patterns below). -/
def asciiLower (c : Char) : Char :=
  if 0x41 ≤ c.toNat && c.toNat ≤ 0x5a then Char.ofNat (c.toNat + 32) else c

/-- Spam pattern 1 of validateReviewContent, the regex (.)\1{4,} : some
character (not a line terminator) occurs five or more times in a row. -/
def hasRepeatedRun : List Char → Bool
  | a :: b :: c :: d :: e :: rest =>
    (isRegexDot a && a == b && a == c && a == d && a == e) ||
      hasRepeatedRun (b :: c :: d :: e :: rest)
  | _ => false

/-- Spam pattern 2 of validateReviewContent, the anchored regex
^[A-Z\s!]{20,}$ : the whole string is at least 20 characters, all of them
capital letters, whitespace or exclamation marks. -/
def isUppercaseSpam (l : List Char) : Bool :=
  20 ≤ l.length && l.all (fun c => (0x41 ≤ c.toNat && c.toNat ≤ 0x5a) || isJsSpace c || c == '!')

/-- Case-insensitive prefix test, used to match the literal alternatives of
the promotional spam regex. -/
def startsWithCI : List Char → List Char → Bool
  | [], _ => true
  | _ :: _, [] => false
  | p :: ps, c :: cs => (asciiLower c == asciiLower p) && startsWithCI ps cs

/-- First alternation of the promotional spam regex:
buy|sell|cheap|discount|offer|deal. -/
def promoStartWords : List (List Char) :=
  ["buy".toList, "sell".toList, "cheap".toList, "discount".toList,
    "offer".toList, "deal".toList]

/-- Second alternation of the promotional spam regex: now|today|click. -/
def promoEndWords : List (List Char) :=
  ["now".toList, "today".toList, "click".toList]

/-- Whether one of the closing promotional words starts here. -/
def promoEndHere (l : List Char) : Bool :=
  promoEndWords.any (fun w => startsWithCI w l)

/-- The .{0,20}(now|today|click) tail of the promotional regex: after at
most the given number of arbitrary non-line-terminator characters, one of
the closing words starts. -/
def promoGap : ℕ → List Char → Bool
  | 0, l => promoEndHere l
  | _ + 1, [] => promoEndHere []
  | k + 1, c :: cs => promoEndHere (c :: cs) || (isRegexDot c && promoGap k cs)

/-- Whether the promotional regex matches starting exactly here. -/
def promoMatchHere (l : List Char) : Bool :=
  promoStartWords.any (fun w => startsWithCI w l && promoGap 20 (l.drop w.length))

/-- Spam pattern 3 of validateReviewContent, the unanchored case-insensitive
regex (buy|sell|cheap|discount|offer|deal).{0,20}(now|today|click) tested
at every position of the string. -/
def hasPromoPattern : List Char → Bool
  | [] => promoMatchHere []
  | c :: cs => promoMatchHere (c :: cs) || hasPromoPattern cs

/-- Case-insensitive substring test: content.toLowerCase().includes(word)
for an ASCII lower-case word. -/
def containsCI (needle : List Char) : List Char → Bool
  | [] => startsWithCI needle []
  | c :: cs => startsWithCI needle (c :: cs) || containsCI needle cs

/-- The hard-coded denylist of validateReviewContent. -/
def profanityWords : List (List Char) := ["badword1".toList, "badword2".toList]

/-- content.split(/\s+/) followed by keeping the tokens longer than two
characters.  Splitting at every single whitespace character produces the
same tokens as splitting at maximal whitespace runs, plus extra empty
tokens; the length filter below removes empty tokens either way, so the
filtered lists coincide. -/
def splitWsAux : List Char → List Char → List (List Char)
  | [], acc => [acc.reverse]
  | c :: cs, acc =>
    if isJsSpace c then acc.reverse :: splitWsAux cs [] else splitWsAux cs (c :: acc)

/-- Tokenization of the word-count rule: split on whitespace. -/
def splitWs (l : List Char) : List (List Char) := splitWsAux l []

/-- The meaningful words of the word-count rule: whitespace-separated tokens
longer than two characters. -/
def meaningfulWords (content : List Char) : List (List Char) :=
  (splitWs content).filter (fun w => 2 < w.length)

/-- Result shape of validateReviewContent. -/
structure ValidationResult where
  isValid : Bool
  errors : List String
deriving DecidableEq

/-- Error message pushed by each of the three spam patterns. -/
def spamMsg : String := "Content appears to be spam"

/-- Error message of the word-count rule. -/
def wordCountMsg : String := "Review must contain at least 20 meaningful words"

/-- Error message of the denylist rule. -/
def profanityMsg : String := "Review contains inappropriate language"

/-- utils/reviewHelpers.js validateReviewContent(content, title): each of
the three spam patterns is tested against content and title and pushes its
message when either matches; then the word-count rule on content alone;
then the case-insensitive denylist check on content and title.  isValid is
whether the error list stayed empty. -/
def validateReviewContent (content title : List Char) : ValidationResult :=
  let spamErrors :=
    (if hasRepeatedRun content || hasRepeatedRun title then [spamMsg] else []) ++
    (if isUppercaseSpam content || isUppercaseSpam title then [spamMsg] else []) ++
    (if hasPromoPattern content || hasPromoPattern title then [spamMsg] else [])
  let wordErrors :=
    if (meaningfulWords content).length < 20 then [wordCountMsg] else []
  let profanityErrors :=
    if profanityWords.any (fun w => containsCI w content || containsCI w title) then
      [profanityMsg]
    else []
  let errors := spamErrors ++ wordErrors ++ profanityErrors
  { isValid := errors.length == 0, errors := errors }

/-! ## Review documents, the rating aggregator and the route handlers
(routes/reviews.js, models/Review.js) -/

/-- A persisted review document (models/Review.js).  The schema defaults
give every stored document a helpful and a reported sub-document and an
isActive flag, so none of them is optional here.  Document ids are modelled
as naturals and user ids as strings. -/
structure Review where
  id : ℕ
  user : String
  college : ℕ
  ratings : Ratings
  title : String
  content : List Char
  pros : List String
  cons : List String
  wouldRecommend : Bool
  helpful : VoteInfo
  reported : VoteInfo
  isActive : Bool
deriving DecidableEq

/-- The per-category part of the denormalized rating summary stored on a
college (models/College.js reviews.ratingBreakdown). -/
structure RatingBreakdown where
  academics : ℚ
  campusLife : ℚ
  facilities : ℚ
  location : ℚ
  value : ℚ
deriving DecidableEq

/-- The denormalized rating summary stored on a college
(models/College.js reviews fragment). -/
structure RatingSummary where
  averageRating : ℚ
  totalReviews : ℕ
  ratingBreakdown : RatingBreakdown
deriving DecidableEq

/-- The query Review.find with college == collegeId and isActive == true. -/
def activeReviews (reviews : List Review) (collegeId : ℕ) : List Review :=
  reviews.filter (fun r => r.college == collegeId && r.isActive)

/-- reviews.reduce((sum, review) => sum + f(review), 0). -/
def sumRatings (reviews : List Review) (f : Review → ℚ) : ℚ :=
  reviews.foldl (fun sum review => sum + f review) 0

/-- routes/reviews.js updateCollegeRatings: fetch the active reviews of the
college; when there are none store the zero summary; otherwise store the
overall mean rounded via Math.round(x * 10) / 10, the unrounded per-category
means and the count. -/
def updateCollegeRatings (reviews : List Review) (collegeId : ℕ) : RatingSummary :=
  let found := activeReviews reviews collegeId
  if found.length = 0 then
    { averageRating := 0
      totalReviews := 0
      ratingBreakdown := { academics := 0, campusLife := 0, facilities := 0, location := 0, value := 0 } }
  else
    let totalReviews := found.length
    let averageRating := sumRatings found (fun r => r.ratings.overall) / (totalReviews : ℚ)
    let ratingBreakdown : RatingBreakdown :=
      { academics := sumRatings found (fun r => r.ratings.academics) / (totalReviews : ℚ)
        campusLife := sumRatings found (fun r => r.ratings.campusLife) / (totalReviews : ℚ)
        facilities := sumRatings found (fun r => r.ratings.facilities) / (totalReviews : ℚ)
        location := sumRatings found (fun r => r.ratings.location) / (totalReviews : ℚ)
        value := sumRatings found (fun r => r.ratings.value) / (totalReviews : ℚ) }
    { averageRating := (jsRound (averageRating * 10) : ℚ) / 10
      totalReviews := totalReviews
      ratingBreakdown := ratingBreakdown }

/-- The persistent state seen by the review routes: the review collection
and, per college id, the denormalized rating summary stored on the college
document. -/
structure AppState where
  reviews : List Review
  summaries : ℕ → RatingSummary

/-- College.findByIdAndUpdate writing a freshly computed rating summary. -/
def storeSummary (st : AppState) (collegeId : ℕ) (s : RatingSummary) : AppState :=
  { st with summaries := fun c => if c = collegeId then s else st.summaries c }

/-- review.save() on an existing document: replace the stored document that
has the same id. -/
def saveReview (reviews : List Review) (r : Review) : List Review :=
  reviews.map (fun x => if x.id == r.id then r else x)

/-- POST /api/reviews (routes/reviews.js): the duplicate-review check is
Review.findOne({ user, college }) with no isActive condition; when it finds
any document the request fails with status 400 and nothing is persisted.
Otherwise the review is saved and updateCollegeRatings runs on the new
collection. -/
def createReview (st : AppState) (newReview : Review) : Except String AppState :=
  if st.reviews.any (fun r => r.user == newReview.user && r.college == newReview.college) then
    Except.error "You have already reviewed this college"
  else
    let reviews := st.reviews ++ [newReview]
    let st1 : AppState := { st with reviews := reviews }
    Except.ok (storeSummary st1 newReview.college (updateCollegeRatings reviews newReview.college))

/-- The author-updatable fields of PUT /api/reviews/:id (allowedUpdates in
routes/reviews.js, omitting graduationYear and major which no claim
touches); a field set to none is absent from the request body and left
unchanged. -/
structure ReviewPatch where
  title : Option String
  content : Option (List Char)
  ratings : Option Ratings
  pros : Option (List String)
  cons : Option (List String)
  wouldRecommend : Option Bool

/-- Application of the allowed updates to the found document. -/
def applyPatch (r : Review) (p : ReviewPatch) : Review :=
  { r with
    title := p.title.getD r.title
    content := p.content.getD r.content
    ratings := p.ratings.getD r.ratings
    pros := p.pros.getD r.pros
    cons := p.cons.getD r.cons
    wouldRecommend := p.wouldRecommend.getD r.wouldRecommend }

/-- PUT /api/reviews/:id: find the document by id and author, apply the
allowed updates, save, then updateCollegeRatings on the saved collection. -/
def updateReviewOp (st : AppState) (id : ℕ) (uid : String) (patch : ReviewPatch) :
    Except String AppState :=
  match st.reviews.find? (fun r => r.id == id && r.user == uid) with
  | none => Except.error "Review not found or unauthorized"
  | some review =>
    let review := applyPatch review patch
    let reviews := saveReview st.reviews review
    let st1 : AppState := { st with reviews := reviews }
    Except.ok (storeSummary st1 review.college (updateCollegeRatings reviews review.college))

/-- DELETE /api/reviews/:id: find the document by id and author, soft-delete
it by clearing isActive, save, then updateCollegeRatings on the saved
collection. -/
def deleteReviewOp (st : AppState) (id : ℕ) (uid : String) : Except String AppState :=
  match st.reviews.find? (fun r => r.id == id && r.user == uid) with
  | none => Except.error "Review not found or unauthorized"
  | some review =>
    let collegeId := review.college
    let review := { review with isActive := false }
    let reviews := saveReview st.reviews review
    let st1 : AppState := { st with reviews := reviews }
    Except.ok (storeSummary st1 collegeId (updateCollegeRatings reviews collegeId))

/-- POST /api/reviews/:id/helpful, the mutation applied to the found review:
a helpful=true vote from a user who has not voted pushes the user and
increments the counter; a helpful=false vote from a user who has voted
filters the user out and decrements the counter; anything else leaves the
document unchanged. -/
def applyHelpfulVote (review : Review) (uid : String) (helpful : Bool) : Review :=
  let hasVoted := review.helpful.users.contains uid
  if helpful then
    if !hasVoted then
      { review with helpful :=
          { count := review.helpful.count + 1, users := review.helpful.users ++ [uid] } }
    else review
  else
    if hasVoted then
      { review with helpful :=
          { count := review.helpful.count - 1
            users := review.helpful.users.filter (fun userId => userId != uid) } }
    else review

/-- POST /api/reviews/:id/report, the mutation applied to the found review:
a repeated reporter gets status 400, otherwise the user is pushed and the
counter incremented. -/
def applyReport (review : Review) (uid : String) : Except String Review :=
  if review.reported.users.contains uid then
    Except.error "You have already reported this review"
  else
    Except.ok { review with reported :=
      { count := review.reported.count + 1, users := review.reported.users ++ [uid] } }

/-- The approve branch of the moderation route: review.reported is replaced
by the empty counter. -/
def clearReports (review : Review) : Review :=
  { review with reported := { count := 0, users := [] } }

/-- POST /api/reviews/:id/moderate (adminAuth): find the document by id
alone.  On action "remove" the handler clears isActive on the in-memory
document, then calls updateCollegeRatings BEFORE review.save(), so the
recompute reads the stored collection in which the document is still
active; only afterwards is the document saved.  On action "approve" the
reports are cleared and the document saved.  Any other action just saves
the document back. -/
def moderateReview (st : AppState) (id : ℕ) (action : String) : Except String AppState :=
  match st.reviews.find? (fun r => r.id == id) with
  | none => Except.error "Review not found"
  | some review =>
    if action == "remove" then
      let review := { review with isActive := false }
      let summary := updateCollegeRatings st.reviews review.college
      let st1 : AppState := { st with reviews := saveReview st.reviews review }
      Except.ok (storeSummary st1 review.college summary)
    else if action == "approve" then
      Except.ok { st with reviews := saveReview st.reviews (clearReports review) }
    else
      Except.ok { st with reviews := saveReview st.reviews review }

/-! ## Spec-side definitions used to state the claims -/

/-- Mean of a list of rationals, as the spec words it. -/
def listMean (l : List ℚ) : ℚ := l.sum / (l.length : ℚ)

/-- Modelled from the claim text of the scorer contract: the score formula
max(0, 0.3*overall + 0.2*academics + 0.15*campusLife + 0.15*facilities
+ 0.1*location + 0.1*value + min(helpfulCount*0.1, 2.0)
- min(reportCount*0.5, 3.0) + min(contentLength/200 + (pros+cons)*0.2, 1.0))
rounded to one decimal place. -/
def reviewScoreSpec (overall academics campusLife facilities location value : ℚ)
    (helpfulCount reportCount : ℤ) (contentLength prosCount consCount : ℕ) : ℚ :=
  (jsRound (max 0 ((3/10) * overall + (2/10) * academics + (15/100) * campusLife +
      (15/100) * facilities + (1/10) * location + (1/10) * value +
      min ((helpfulCount : ℚ) * (1/10)) 2 - min ((reportCount : ℚ) * (5/10)) 3 +
      min ((contentLength : ℚ) / 200 + ((prosCount : ℚ) + (consCount : ℚ)) * (2/10)) 1) * 10) : ℚ)
    / 10

/-- The invariant of claim C9: the stored counter equals the cardinality of
the voter set (the set of distinct user ids in the stored voter array). -/
def countMatchesVoters (v : VoteInfo) : Prop :=
  v.count = (v.users.toFinset.card : ℤ)

end CollegeBooking

/-! ## Theorems -/

namespace CollegeBooking

theorem foldl_add_eq (f : Review → ℚ) (l : List Review) (init : ℚ) :
    l.foldl (fun sum review => sum + f review) init = init + (l.map f).sum := by
  induction l generalizing init with
  | nil => simp
  | cons a l ih => simp [List.foldl, ih]; ring

theorem sumRatings_eq (l : List Review) (f : Review → ℚ) :
    sumRatings l f = (l.map f).sum := by
  simp [sumRatings, foldl_add_eq]

/-- C1: for every non-empty set of active reviews of a college,
updateCollegeRatings stores averageRating equal to the mean of the overall
ratings rounded to exactly one decimal place (round(mean * 10) / 10), each
ratingBreakdown field as the unrounded mean of the corresponding
sub-rating, and totalReviews equal to the number of active reviews. -/
theorem aggregator_nonempty_summary (reviews : List Review) (collegeId : ℕ)
    (hne : activeReviews reviews collegeId ≠ []) :
    (updateCollegeRatings reviews collegeId).averageRating =
      (jsRound (listMean ((activeReviews reviews collegeId).map
        (fun r => r.ratings.overall)) * 10) : ℚ) / 10 ∧
    (updateCollegeRatings reviews collegeId).ratingBreakdown.academics =
      listMean ((activeReviews reviews collegeId).map (fun r => r.ratings.academics)) ∧
    (updateCollegeRatings reviews collegeId).ratingBreakdown.campusLife =
      listMean ((activeReviews reviews collegeId).map (fun r => r.ratings.campusLife)) ∧
    (updateCollegeRatings reviews collegeId).ratingBreakdown.facilities =
      listMean ((activeReviews reviews collegeId).map (fun r => r.ratings.facilities)) ∧
    (updateCollegeRatings reviews collegeId).ratingBreakdown.location =
      listMean ((activeReviews reviews collegeId).map (fun r => r.ratings.location)) ∧
    (updateCollegeRatings reviews collegeId).ratingBreakdown.value =
      listMean ((activeReviews reviews collegeId).map (fun r => r.ratings.value)) ∧
    (updateCollegeRatings reviews collegeId).totalReviews =
      (activeReviews reviews collegeId).length := by
  have hlen : ¬ (activeReviews reviews collegeId).length = 0 := by
    simpa [List.length_eq_zero] using hne
  refine ⟨?_, ?_, ?_, ?_, ?_, ?_, ?_⟩ <;>
    simp [updateCollegeRatings, hlen, listMean, sumRatings_eq]

/-- Fixed input for the witness of C1: a college with three active reviews
whose overall ratings are 5, 4 and 3 (the scenario of the spec). -/
def c1Review (i : ℕ) (overall : ℚ) : Review :=
  { id := i
    user := "user" ++ toString i
    college := 1
    ratings := { overall := overall, academics := 4, campusLife := 3, facilities := 4, location := 5, value := 2 }
    title := "title"
    content := []
    pros := []
    cons := []
    wouldRecommend := true
    helpful := { count := 0, users := [] }
    reported := { count := 0, users := [] }
    isActive := true }

def c1Reviews : List Review := [c1Review 1 5, c1Review 2 4, c1Review 3 3]

theorem aggregator_nonempty_summary_witness :
    activeReviews c1Reviews 1 ≠ [] ∧
    ((updateCollegeRatings c1Reviews 1).averageRating =
      (jsRound (listMean ((activeReviews c1Reviews 1).map
        (fun r => r.ratings.overall)) * 10) : ℚ) / 10 ∧
    (updateCollegeRatings c1Reviews 1).ratingBreakdown.academics =
      listMean ((activeReviews c1Reviews 1).map (fun r => r.ratings.academics)) ∧
    (updateCollegeRatings c1Reviews 1).ratingBreakdown.campusLife =
      listMean ((activeReviews c1Reviews 1).map (fun r => r.ratings.campusLife)) ∧
    (updateCollegeRatings c1Reviews 1).ratingBreakdown.facilities =
      listMean ((activeReviews c1Reviews 1).map (fun r => r.ratings.facilities)) ∧
    (updateCollegeRatings c1Reviews 1).ratingBreakdown.location =
      listMean ((activeReviews c1Reviews 1).map (fun r => r.ratings.location)) ∧
    (updateCollegeRatings c1Reviews 1).ratingBreakdown.value =
      listMean ((activeReviews c1Reviews 1).map (fun r => r.ratings.value)) ∧
    (updateCollegeRatings c1Reviews 1).totalReviews =
      (activeReviews c1Reviews 1).length) :=
  ⟨by decide, aggregator_nonempty_summary c1Reviews 1 (by decide)⟩

/-- C2: for every college whose set of active reviews is empty,
updateCollegeRatings stores the zero summary: averageRating 0,
totalReviews 0 and every ratingBreakdown field 0. -/
theorem aggregator_empty_zero_summary (reviews : List Review) (collegeId : ℕ)
    (h : activeReviews reviews collegeId = []) :
    (updateCollegeRatings reviews collegeId).averageRating = 0 ∧
    (updateCollegeRatings reviews collegeId).totalReviews = 0 ∧
    (updateCollegeRatings reviews collegeId).ratingBreakdown.academics = 0 ∧
    (updateCollegeRatings reviews collegeId).ratingBreakdown.campusLife = 0 ∧
    (updateCollegeRatings reviews collegeId).ratingBreakdown.facilities = 0 ∧
    (updateCollegeRatings reviews collegeId).ratingBreakdown.location = 0 ∧
    (updateCollegeRatings reviews collegeId).ratingBreakdown.value = 0 := by
  refine ⟨?_, ?_, ?_, ?_, ?_, ?_, ?_⟩ <;> simp [updateCollegeRatings, h]

/-- Fixed input for the witness of C2: the only review of college 1 is
soft-deleted, so the active set is empty. -/
def c2Reviews : List Review := [{ c1Review 1 5 with isActive := false }]

theorem aggregator_empty_zero_summary_witness :
    activeReviews c2Reviews 1 = [] ∧
    ((updateCollegeRatings c2Reviews 1).averageRating = 0 ∧
    (updateCollegeRatings c2Reviews 1).totalReviews = 0 ∧
    (updateCollegeRatings c2Reviews 1).ratingBreakdown.academics = 0 ∧
    (updateCollegeRatings c2Reviews 1).ratingBreakdown.campusLife = 0 ∧
    (updateCollegeRatings c2Reviews 1).ratingBreakdown.facilities = 0 ∧
    (updateCollegeRatings c2Reviews 1).ratingBreakdown.location = 0 ∧
    (updateCollegeRatings c2Reviews 1).ratingBreakdown.value = 0) :=
  ⟨by decide, aggregator_empty_zero_summary c2Reviews 1 (by decide)⟩

end CollegeBooking

namespace CollegeBooking

/-- The review moderated away in the C3 scenario: the only review of
college 1, currently active. -/
def c3Review : Review :=
  { id := 1
    user := "author"
    college := 1
    ratings := { overall := 4, academics := 4, campusLife := 4, facilities := 4, location := 4, value := 4 }
    title := "title"
    content := []
    pros := []
    cons := []
    wouldRecommend := true
    helpful := { count := 0, users := [] }
    reported := { count := 3, users := ["r1", "r2", "r3"] }
    isActive := true }

/-- The zero summary, used as the initial stored summary of every college in
the C3 scenario. -/
def zeroSummary : RatingSummary :=
  { averageRating := 0
    totalReviews := 0
    ratingBreakdown := { academics := 0, campusLife := 0, facilities := 0, location := 0, value := 0 } }

/-- State before the C3 moderation: one active review for college 1. -/
def c3State : AppState := { reviews := [c3Review], summaries := fun _ => zeroSummary }

/-- C3: refuted on the moderation-removal path.  Removing the only active
review of college 1 through the moderation route ends with a stored summary
still counting one review (totalReviews = 1) while the persisted set of
active reviews for college 1 is empty: the handler calls
updateCollegeRatings before review.save(), so the recompute reads the
pre-operation review set and the stored summary diverges from the
post-operation active set for good, not merely for the duration of the
operation. -/
theorem moderation_remove_stale_summary :
    (moderateReview c3State 1 "remove").toOption.map
      (fun st => ((st.summaries 1).totalReviews, (activeReviews st.reviews 1).length))
      = some (1, 0) := by
  decide

end CollegeBooking

namespace CollegeBooking

/-- C10: the duplicate-review check of the create route matches any existing
review by the same user for the same college, active or soft-deleted, and
on a match the operation fails with the already-reviewed error and returns
no new state (nothing is persisted). -/
theorem create_rejects_any_existing_review (st : AppState) (newReview r : Review)
    (hmem : r ∈ st.reviews) (huser : r.user = newReview.user)
    (hcoll : r.college = newReview.college) :
    createReview st newReview = Except.error "You have already reviewed this college" := by
  have hany : st.reviews.any
      (fun x => x.user == newReview.user && x.college == newReview.college) = true := by
    refine List.any_eq_true.mpr ⟨r, hmem, ?_⟩
    simp [huser, hcoll]
  simp [createReview, hany]

/-- The soft-deleted review already on file in the C10 witness. -/
def c10Deleted : Review := { c3Review with isActive := false }

/-- The fresh review the same user attempts to submit in the C10 witness. -/
def c10NewReview : Review :=
  { c3Review with
    id := 2
    ratings := { overall := 5, academics := 5, campusLife := 5, facilities := 5, location := 5, value := 5 } }

/-- State for the C10 witness: the user has one soft-deleted review for
college 1 and tries to create a new one for the same college. -/
def c10State : AppState :=
  { reviews := [c10Deleted], summaries := fun _ => zeroSummary }

theorem create_rejects_any_existing_review_witness :
    c10Deleted ∈ c10State.reviews ∧
    c10Deleted.user = c10NewReview.user ∧
    c10Deleted.college = c10NewReview.college ∧
    createReview c10State c10NewReview =
      Except.error "You have already reviewed this college" :=
  ⟨by decide, by decide, by decide,
    create_rejects_any_existing_review c10State c10NewReview c10Deleted
      (by decide) (by decide) (by decide)⟩

end CollegeBooking

namespace CollegeBooking

theorem toFinset_append_card (l : List String) (uid : String) (h : uid ∉ l) :
    (((l ++ [uid]).toFinset.card : ℕ) : ℤ) = ((l.toFinset.card : ℕ) : ℤ) + 1 := by
  have h1 : (l ++ [uid]).toFinset = insert uid l.toFinset := by
    ext a; simp [or_comm]
  rw [h1, Finset.card_insert_of_not_mem (by simpa using h)]
  push_cast
  ring

theorem toFinset_filter_ne_card (l : List String) (uid : String) (h : uid ∈ l) :
    (((l.filter (fun u => u != uid)).toFinset.card : ℕ) : ℤ) =
      ((l.toFinset.card : ℕ) : ℤ) - 1 := by
  have h1 : (l.filter (fun u => u != uid)).toFinset = l.toFinset.erase uid := by
    ext a
    simp only [List.mem_toFinset, List.mem_filter, Finset.mem_erase, bne_iff_ne]
    exact and_comm
  have hmem : uid ∈ l.toFinset := List.mem_toFinset.mpr h
  have hpos : 0 < l.toFinset.card := Finset.card_pos.mpr ⟨uid, hmem⟩
  rw [h1, Finset.card_erase_of_mem hmem]
  omega

/-- C9: each operation that mutates the helpful or reported counters (a
helpful vote added or removed, a report, and the moderation approve action
that clears reports) keeps the stored count equal to the cardinality of the
corresponding voter set, provided both held before the operation. -/
theorem counters_match_voter_sets (review : Review) (uid : String) (vote : Bool)
    (hH : countMatchesVoters review.helpful) (hR : countMatchesVoters review.reported) :
    (countMatchesVoters (applyHelpfulVote review uid vote).helpful ∧
      countMatchesVoters (applyHelpfulVote review uid vote).reported) ∧
    (∀ review2, applyReport review uid = Except.ok review2 →
      countMatchesVoters review2.helpful ∧ countMatchesVoters review2.reported) ∧
    (countMatchesVoters (clearReports review).helpful ∧
      countMatchesVoters (clearReports review).reported) := by
  unfold countMatchesVoters at hH hR ⊢
  refine ⟨⟨?_, ?_⟩, ?_, ?_, ?_⟩
  · by_cases hmem : uid ∈ review.helpful.users
    · cases vote with
      | true => simp [applyHelpfulVote, hmem, hH]
      | false =>
        simp [applyHelpfulVote, hmem]
        rw [Finset.filter_ne', Finset.card_erase_of_mem (List.mem_toFinset.mpr hmem)]
        have hpos : 0 < review.helpful.users.toFinset.card :=
          Finset.card_pos.mpr ⟨uid, List.mem_toFinset.mpr hmem⟩
        omega
    · cases vote with
      | true =>
        simp [applyHelpfulVote, hmem]
        exact hH
      | false => simp [applyHelpfulVote, hmem, hH]
  · simp only [applyHelpfulVote]
    split <;> split <;> exact hR
  · intro review2 hok
    by_cases hmem : uid ∈ review.reported.users
    · simp [applyReport, hmem] at hok
    · simp only [applyReport] at hok
      rw [if_neg (by simpa using hmem)] at hok
      cases hok
      refine ⟨hH, ?_⟩
      show review.reported.count + 1 = (((review.reported.users ++ [uid]).toFinset.card : ℕ) : ℤ)
      rw [toFinset_append_card _ _ hmem]
      omega
  · exact hH
  · simp [clearReports]

/-- Fixed review for the C9 witness, with both invariants holding. -/
def c9Review : Review :=
  { c3Review with
    helpful := { count := 2, users := ["a", "b"] }
    reported := { count := 1, users := ["b"] } }

theorem counters_match_voter_sets_witness :
    countMatchesVoters c9Review.helpful ∧ countMatchesVoters c9Review.reported ∧
    ((countMatchesVoters (applyHelpfulVote c9Review "c" true).helpful ∧
      countMatchesVoters (applyHelpfulVote c9Review "c" true).reported) ∧
    (∀ review2, applyReport c9Review "c" = Except.ok review2 →
      countMatchesVoters review2.helpful ∧ countMatchesVoters review2.reported) ∧
    (countMatchesVoters (clearReports c9Review).helpful ∧
      countMatchesVoters (clearReports c9Review).reported)) :=
  ⟨by unfold countMatchesVoters; decide, by unfold countMatchesVoters; decide,
    counters_match_voter_sets c9Review "c" true
      (by unfold countMatchesVoters; decide) (by unfold countMatchesVoters; decide)⟩

end CollegeBooking

namespace CollegeBooking

theorem jsRound_div10_congr (a b : ℚ) (h : a = b) :
    ((jsRound a : ℤ) : ℚ) / 10 = ((jsRound b : ℤ) : ℚ) / 10 := by rw [h]

/-- C4: on a review whose helpful and reported sub-documents are present
and whose six ratings lie in [1,5], calculateReviewScore returns exactly
the score the spec formula prescribes: max(0, weighted rating sum
+ helpful boost capped at 2 - report penalty capped at 3 + content score
capped at 1) rounded to one decimal place. -/
theorem scorer_matches_spec_formula (r : ReviewSnapshot) (hi ri : VoteInfo)
    (hh : r.helpful = some hi) (hr : r.reported = some ri)
    (hov1 : 1 ≤ r.ratings.overall) (hov5 : r.ratings.overall ≤ 5)
    (hac1 : 1 ≤ r.ratings.academics) (hac5 : r.ratings.academics ≤ 5)
    (hcl1 : 1 ≤ r.ratings.campusLife) (hcl5 : r.ratings.campusLife ≤ 5)
    (hfa1 : 1 ≤ r.ratings.facilities) (hfa5 : r.ratings.facilities ≤ 5)
    (hlo1 : 1 ≤ r.ratings.location) (hlo5 : r.ratings.location ≤ 5)
    (hva1 : 1 ≤ r.ratings.value) (hva5 : r.ratings.value ≤ 5) :
    calculateReviewScore r = some (reviewScoreSpec r.ratings.overall r.ratings.academics
      r.ratings.campusLife r.ratings.facilities r.ratings.location r.ratings.value
      hi.count ri.count r.content.length
      ((r.pros.map List.length).getD 0) ((r.cons.map List.length).getD 0)) := by
  simp only [calculateReviewScore, hh, hr, reviewScoreSpec, Option.some.injEq]
  apply jsRound_div10_congr
  push_cast
  ring_nf

/-- Fixed input for the C4 witness, the scenario of the spec: all six
ratings 5, helpfulCount 25, reportCount 0, content of 300 characters,
3 pros and 1 con; its score is exactly 8. -/
def c4Snap : ReviewSnapshot :=
  { ratings := { overall := 5, academics := 5, campusLife := 5, facilities := 5, location := 5, value := 5 }
    content := List.replicate 300 'a'
    pros := some ["a", "b", "c"]
    cons := some ["d"]
    wouldRecommend := true
    helpful := some { count := 25, users := [] }
    reported := some { count := 0, users := [] } }

set_option maxRecDepth 8000 in
theorem scorer_matches_spec_formula_witness :
    c4Snap.helpful = some { count := 25, users := [] } ∧
    c4Snap.reported = some { count := 0, users := [] } ∧
    (1 ≤ c4Snap.ratings.overall ∧ c4Snap.ratings.overall ≤ 5) ∧
    calculateReviewScore c4Snap = some (reviewScoreSpec 5 5 5 5 5 5 25 0 300 3 1) ∧
    reviewScoreSpec 5 5 5 5 5 5 25 0 300 3 1 = 8 :=
  ⟨rfl, rfl, ⟨by norm_num [c4Snap], by norm_num [c4Snap]⟩,
    scorer_matches_spec_formula c4Snap { count := 25, users := [] } { count := 0, users := [] }
      rfl rfl (by norm_num [c4Snap]) (by norm_num [c4Snap]) (by norm_num [c4Snap])
      (by norm_num [c4Snap]) (by norm_num [c4Snap]) (by norm_num [c4Snap])
      (by norm_num [c4Snap]) (by norm_num [c4Snap]) (by norm_num [c4Snap])
      (by norm_num [c4Snap]) (by norm_num [c4Snap]) (by norm_num [c4Snap]),
    by norm_num [reviewScoreSpec, jsRound]⟩

end CollegeBooking

namespace CollegeBooking

theorem jsRound_div10_mono (x y : ℚ) (hxy : x ≤ y) :
    ((jsRound x : ℤ) : ℚ) / 10 ≤ ((jsRound y : ℤ) : ℚ) / 10 := by
  have hfl : jsRound x ≤ jsRound y := Int.floor_mono (by linarith)
  have h10 : (0 : ℚ) < 10 := by norm_num
  exact (div_le_div_iff_of_pos_right h10).mpr (by exact_mod_cast hfl)

/-- C5: holding every other field of the review fixed, the score returned
by calculateReviewScore is non-decreasing in helpful.count and
non-increasing in reported.count. -/
theorem scorer_monotone (r : ReviewSnapshot) (u : List String)
    (h₁ h₂ r₁ r₂ : ℤ) (hh : h₁ ≤ h₂) (hr : r₁ ≤ r₂) (q₁ q₂ q₃ q₄ : ℚ)
    (e₁ : calculateReviewScore { r with helpful := some { count := h₁, users := u } } = some q₁)
    (e₂ : calculateReviewScore { r with helpful := some { count := h₂, users := u } } = some q₂)
    (e₃ : calculateReviewScore { r with reported := some { count := r₁, users := u } } = some q₃)
    (e₄ : calculateReviewScore { r with reported := some { count := r₂, users := u } } = some q₄) :
    q₁ ≤ q₂ ∧ q₄ ≤ q₃ := by
  rcases hrep : r.reported with _ | rep
  · simp [calculateReviewScore, hrep] at e₁
  rcases hhel : r.helpful with _ | hel
  · simp [calculateReviewScore, hhel] at e₃
  simp only [calculateReviewScore, hrep, hhel, Option.some.injEq] at e₁ e₂ e₃ e₄
  subst e₁
  subst e₂
  subst e₃
  subst e₄
  have hcH : (h₁ : ℚ) ≤ (h₂ : ℚ) := by exact_mod_cast hh
  have hcR : (r₁ : ℚ) ≤ (r₂ : ℚ) := by exact_mod_cast hr
  constructor
  · apply jsRound_div10_mono
    apply mul_le_mul_of_nonneg_right _ (by norm_num : (0:ℚ) ≤ 10)
    apply max_le_max le_rfl
    have hmin : min ((h₁:ℚ) * (1/10)) 2 ≤ min ((h₂:ℚ) * (1/10)) 2 :=
      min_le_min (mul_le_mul_of_nonneg_right hcH (by norm_num)) le_rfl
    linarith [hmin]
  · apply jsRound_div10_mono
    apply mul_le_mul_of_nonneg_right _ (by norm_num : (0:ℚ) ≤ 10)
    apply max_le_max le_rfl
    have hmin : min ((r₁:ℚ) * (5/10)) 3 ≤ min ((r₂:ℚ) * (5/10)) 3 :=
      min_le_min (mul_le_mul_of_nonneg_right hcR (by norm_num)) le_rfl
    linarith [hmin]

set_option maxRecDepth 8000 in
theorem scorer_monotone_witness :
    ((0:ℤ) ≤ 30 ∧ (0:ℤ) ≤ 10) ∧
    calculateReviewScore { c4Snap with helpful := some { count := 0, users := [] } } = some 6 ∧
    calculateReviewScore { c4Snap with helpful := some { count := 30, users := [] } } = some 8 ∧
    calculateReviewScore { c4Snap with reported := some { count := 0, users := [] } } = some 8 ∧
    calculateReviewScore { c4Snap with reported := some { count := 10, users := [] } } = some 5 ∧
    ((6:ℚ) ≤ 8 ∧ (5:ℚ) ≤ 8) := by
  have e₁ : calculateReviewScore
      { c4Snap with helpful := some { count := 0, users := [] } } = some 6 := by
    simp [calculateReviewScore, c4Snap, jsRound]
    norm_num [min_def, max_def]
  have e₂ : calculateReviewScore
      { c4Snap with helpful := some { count := 30, users := [] } } = some 8 := by
    simp [calculateReviewScore, c4Snap, jsRound]
    norm_num [min_def, max_def]
  have e₃ : calculateReviewScore
      { c4Snap with reported := some { count := 0, users := [] } } = some 8 := by
    simp [calculateReviewScore, c4Snap, jsRound]
    norm_num [min_def, max_def]
  have e₄ : calculateReviewScore
      { c4Snap with reported := some { count := 10, users := [] } } = some 5 := by
    simp [calculateReviewScore, c4Snap, jsRound]
    norm_num [min_def, max_def]
  exact ⟨⟨by norm_num, by norm_num⟩, e₁, e₂, e₃, e₄,
    scorer_monotone c4Snap [] 0 30 0 10 (by norm_num) (by norm_num) 6 8 8 5 e₁ e₂ e₃ e₄⟩

end CollegeBooking

namespace CollegeBooking

/-- Concrete input refuting C6: a review snapshot whose helpful field is
undefined but whose other fields are well formed. -/
def c6Snap : ReviewSnapshot :=
  { ratings := { overall := 5, academics := 5, campusLife := 5, facilities := 5, location := 5, value := 5 }
    content := List.replicate 60 'a'
    pros := some ["p"]
    cons := some ["c"]
    wouldRecommend := true
    helpful := none
    reported := some { count := 0, users := [] } }

/-- C6 counterexample: on a snapshot with helpful undefined the scorer does
NOT return a score treating the field as zero; reading helpful.count throws
(modelled as none), refuting the claim that undefined helpful or reported
is handled like undefined pros or cons. -/
theorem scorer_undefined_helpful_throws : calculateReviewScore c6Snap = none := rfl

/-- C6 amended: calculateReviewScore treats undefined pros and cons as
empty (their counts read as 0 through optional chaining) and returns a
score whenever helpful and reported are present; but helpful and reported
themselves must be present, since their count fields are read without a
guard. -/
theorem scorer_optional_pros_cons_default_empty (r : ReviewSnapshot)
    (hh : r.helpful.isSome = true) (hr : r.reported.isSome = true) :
    (calculateReviewScore r).isSome = true ∧
    calculateReviewScore { r with pros := none, cons := none } =
      calculateReviewScore { r with pros := some [], cons := some [] } := by
  rcases hhe : r.helpful with _ | hel
  · rw [hhe] at hh
    simp at hh
  rcases hre : r.reported with _ | rep
  · rw [hre] at hr
    simp at hr
  constructor
  · simp [calculateReviewScore, hhe, hre]
  · simp [calculateReviewScore, hhe, hre]

theorem scorer_optional_pros_cons_default_empty_witness :
    c4Snap.helpful.isSome = true ∧ c4Snap.reported.isSome = true ∧
    ((calculateReviewScore c4Snap).isSome = true ∧
      calculateReviewScore { c4Snap with pros := none, cons := none } =
        calculateReviewScore { c4Snap with pros := some [], cons := some [] }) :=
  ⟨rfl, rfl, scorer_optional_pros_cons_default_empty c4Snap rfl rfl⟩

end CollegeBooking

namespace CollegeBooking

/-- Content with exactly 19 meaningful words for the C8 scenario. -/
def c19Content : List Char := "word word word word word word word word word word word word word word word word word word word".toList

/-- Content with exactly 20 meaningful words for the C8 scenario. -/
def c20Content : List Char := "word word word word word word word word word word word word word word word word word word word word".toList

/-- Title used alongside the C8 scenario contents. -/
def c8Title : List Char := "Nice campus".toList

/-- C8: the word-count rule of validateReviewContent tokenizes the content
on whitespace, keeps tokens longer than two characters, and appends its
error message exactly when fewer than 20 such tokens exist; isValid holds
exactly when the whole error list is empty; and the concrete 19-word
content fails the rule while the 20-word content passes it. -/
theorem validator_word_count_rule :
    (∀ content title : List Char,
      (wordCountMsg ∈ (validateReviewContent content title).errors ↔
        (meaningfulWords content).length < 20) ∧
      ((validateReviewContent content title).isValid = true ↔
        (validateReviewContent content title).errors = [])) ∧
    (meaningfulWords c19Content).length = 19 ∧
    wordCountMsg ∈ (validateReviewContent c19Content c8Title).errors ∧
    (meaningfulWords c20Content).length = 20 ∧
    wordCountMsg ∉ (validateReviewContent c20Content c8Title).errors := by
  have h1 : ¬ (wordCountMsg = spamMsg) := by decide
  have h2 : ¬ (wordCountMsg = profanityMsg) := by decide
  refine ⟨fun content title => ⟨?_, ?_⟩, by decide, by decide, by decide, by decide⟩
  · simp only [validateReviewContent]
    split_ifs <;> simp_all [h1, h2]
  · simp only [validateReviewContent]
    simp [List.length_eq_zero]

end CollegeBooking

namespace CollegeBooking

/-- C7: getReviewSentiment returns positive exactly when the mean of the
six ratings is at least 4, wouldRecommend is true and there are strictly
more pros than cons; negative exactly when the mean is at most 2,
wouldRecommend is false and there are strictly more cons than pros; and
neutral exactly otherwise.  The two guarded conditions are mutually
exclusive, so first-match ordering does not enlarge either case. -/
theorem sentiment_characterization (r : ReviewSnapshot) :
    (getReviewSentiment r = Sentiment.positive ↔
      (4 ≤ (r.ratings.overall + r.ratings.academics + r.ratings.campusLife +
          r.ratings.facilities + r.ratings.location + r.ratings.value) / 6 ∧
        r.wouldRecommend = true ∧
        (r.cons.map List.length).getD 0 < (r.pros.map List.length).getD 0)) ∧
    (getReviewSentiment r = Sentiment.negative ↔
      ((r.ratings.overall + r.ratings.academics + r.ratings.campusLife +
          r.ratings.facilities + r.ratings.location + r.ratings.value) / 6 ≤ 2 ∧
        r.wouldRecommend = false ∧
        (r.pros.map List.length).getD 0 < (r.cons.map List.length).getD 0)) ∧
    (getReviewSentiment r = Sentiment.neutral ↔
      (¬(4 ≤ (r.ratings.overall + r.ratings.academics + r.ratings.campusLife +
          r.ratings.facilities + r.ratings.location + r.ratings.value) / 6 ∧
        r.wouldRecommend = true ∧
        (r.cons.map List.length).getD 0 < (r.pros.map List.length).getD 0) ∧
      ¬((r.ratings.overall + r.ratings.academics + r.ratings.campusLife +
          r.ratings.facilities + r.ratings.location + r.ratings.value) / 6 ≤ 2 ∧
        r.wouldRecommend = false ∧
        (r.pros.map List.length).getD 0 < (r.cons.map List.length).getD 0))) := by
  simp only [getReviewSentiment]
  split_ifs with hp hn
  · exact ⟨by simp [hp], by simp [hp.2.1], by simp [hp]⟩
  · exact ⟨by simp [hp], by simp [hn], by simp [hn]⟩
  · exact ⟨by simp [hp], by simp [hn], by simp [hp, hn]⟩

end CollegeBooking
